import Mathlib

/-!
Shallow embedding of the ReFlex TakkTile hand controller
(`src/reflex/src/reflex/reflex_takktile_hand.py`): command arbitration,
the tactile-stop safety interlock, the communications watchdog and
feedback ingestion.  State is passed explicitly; each operation returns
the updated controller state together with the list of observable events
it performed, in order, so that sequencing properties can be stated.
Setpoint values are modelled as rationals, ROS times as integer
seconds/nanoseconds pairs.
-/

/-- ROS time: integer seconds and nanoseconds fields, as read via
`rospy.get_rostime()` (the watchdog in `main` reads only `.secs`). -/
structure RosTime where
  secs : Nat
  nsecs : Nat
  deriving DecidableEq

/-- Identity of the four actuators: the dict keys
`/reflex_takktile_f1`, `_f2`, `_f3`, `_preshape`. -/
inductive MotorId where
  | f1
  | f2
  | f3
  | preshape
  deriving DecidableEq

/-- The four actuator ids in the fixed order used by the batched commands. -/
def MotorId.all : List MotorId := [.f1, .f2, .f3, .preshape]

/-- Identity of the three gripping fingers: the dict keys
`/reflex_takktile_f1`, `_f2`, `_f3`. -/
inductive FingerId where
  | f1
  | f2
  | f3
  deriving DecidableEq

/-- Per-actuator state (`ReflexTakktileMotor`): commanded setpoints, the
three dirty flags read by `_publish_motor_commands`, the motor-level
tactile-stop flag toggled by `disable_tactile_stops` /
`enable_tactile_stops`, and a mirror of the last feedback record routed
to it by `_receive_hand_state_cb` (records are opaque payloads). -/
structure Motor where
  commanded_speed : ℚ
  commanded_position : ℚ
  commanded_torque : ℚ
  speed_update_occurred : Bool
  position_update_occurred : Bool
  torque_update_occurred : Bool
  tactile_stops_on : Bool
  last_state : Option Nat
  deriving DecidableEq

/-- Per-finger state (`finger.Finger`): a mirror of the last feedback
record routed to it by `_receive_hand_state_cb`. -/
structure Finger where
  last_state : Option Nat
  deriving DecidableEq

/-- The controller state owned by `ReflexTakktileHand`: the four motors,
the three fingers, the interlock flag `tactile_stops_enabled`, the
watchdog timeout `comms_timeout` and the watchdog clock `latest_update`. -/
structure Hand where
  motors : MotorId → Motor
  fingers : FingerId → Finger
  tactile_stops_enabled : Bool
  comms_timeout : ℚ
  latest_update : RosTime

/-- Observable events of the controller, in the order they are performed:
interlock toggles, setpoint mutations, the watchdog touch, the routing of
feedback sub-records (identified by their positional index in the inbound
arrays), and the three outbound batched command classes with their
payloads. -/
inductive Ev where
  | disable
  | enable
  | setSpeeds
  | setAngles
  | setVelocities
  | setForceCmds
  | resetSpeeds
  | touch
  | routeMotor (target : MotorId) (srcIdx : Nat)
  | routeFinger (target : FingerId) (srcIdx : Nat)
  | emitSpeed (payload : List ℚ)
  | emitPosition (payload : List ℚ)
  | emitTorque (payload : List ℚ)
  deriving DecidableEq

/-- Sequencing of two state transformers, concatenating their event
traces (the Python handlers simply run their statements in order). -/
def andThen (x : Hand × List Ev) (f : Hand → Hand × List Ev) : Hand × List Ev :=
  ((f x.1).1, x.2 ++ (f x.1).2)

/-- Modelled from the spec: the fixed default motor speed restored by
`reset_speeds` (the numeric constant lives in the missing
`reflex_takktile_motor.py`; only the fact that every commanded speed is
reset to it matters to the core). -/
def defaultSpeed : ℚ := 0

/-- Modelled from the spec: `set_speeds` of the missing `reflex_hand.py`
routes a speed setpoint to every actuator and marks its speed dirty flag. -/
def set_speeds (h : Hand) (velocity : MotorId → ℚ) : Hand × List Ev :=
  ({ h with motors := fun m =>
      { h.motors m with commanded_speed := velocity m, speed_update_occurred := true } },
   [Ev.setSpeeds])

/-- Modelled from the spec: `set_angles` of the missing `reflex_hand.py`
routes a position setpoint to every actuator and marks its position dirty
flag. -/
def set_angles (h : Hand) (pose : MotorId → ℚ) : Hand × List Ev :=
  ({ h with motors := fun m =>
      { h.motors m with commanded_position := pose m, position_update_occurred := true } },
   [Ev.setAngles])

/-- Modelled from the spec: `set_velocities` of the missing
`reflex_hand.py` routes a velocity setpoint to every actuator and marks
its speed dirty flag. -/
def set_velocities (h : Hand) (velocity : MotorId → ℚ) : Hand × List Ev :=
  ({ h with motors := fun m =>
      { h.motors m with commanded_speed := velocity m, speed_update_occurred := true } },
   [Ev.setVelocities])

/-- Modelled from the spec: `set_force_cmds` of the missing
`reflex_hand.py` routes a force/torque setpoint to every actuator and
marks its torque dirty flag. -/
def set_force_cmds (h : Hand) (force : MotorId → ℚ) : Hand × List Ev :=
  ({ h with motors := fun m =>
      { h.motors m with commanded_torque := force m, torque_update_occurred := true } },
   [Ev.setForceCmds])

/-- Modelled from the spec: `reset_speeds` of the missing
`reflex_hand.py` resets every actuator's commanded speed to the default
(per the spec's scenario it does not mark a dirty flag: an angle command
is followed by a position emission on the next tick). -/
def reset_speeds (h : Hand) : Hand × List Ev :=
  ({ h with motors := fun m => { h.motors m with commanded_speed := defaultSpeed } },
   [Ev.resetSpeeds])

/-- Source lines 104-109: sets `tactile_stops_enabled` to false,
instructs every motor to suspend tactile stops, then sleeps 50 ms before
returning.  The event marks the whole call; later events in a trace
happen after its return. -/
def disable_tactile_stops (h : Hand) : Hand × List Ev :=
  ({ h with
      tactile_stops_enabled := false,
      motors := fun m => { h.motors m with tactile_stops_on := false } },
   [Ev.disable])

/-- Source lines 111-116: sleeps 70 ms, then sets `tactile_stops_enabled`
to true and instructs every motor to resume tactile stops.  The event
marks the start of the call; earlier events in a trace precede it. -/
def enable_tactile_stops (h : Hand) : Hand × List Ev :=
  ({ h with
      tactile_stops_enabled := true,
      motors := fun m => { h.motors m with tactile_stops_on := true } },
   [Ev.enable])

/-- Source lines 58-65, `_receive_cmd_cb`: records whether the interlock
was enabled, disables it if so, applies the speed then the position
setpoints of the combined command, and re-enables the interlock if it was
enabled. -/
def receive_cmd_cb (h : Hand) (velocity pose : MotorId → ℚ) : Hand × List Ev :=
  let reset := h.tactile_stops_enabled
  andThen (andThen (andThen
      (if reset then disable_tactile_stops h else (h, []))
      (fun s => set_speeds s velocity))
      (fun s => set_angles s pose))
    (fun s => if reset then enable_tactile_stops s else (s, []))

/-- Source lines 67-74, `_receive_angle_cmd_cb`: same interlock wrapping,
with the mutation being a speed reset followed by the position setpoints. -/
def receive_angle_cmd_cb (h : Hand) (pose : MotorId → ℚ) : Hand × List Ev :=
  let reset := h.tactile_stops_enabled
  andThen (andThen (andThen
      (if reset then disable_tactile_stops h else (h, []))
      (fun s => reset_speeds s))
      (fun s => set_angles s pose))
    (fun s => if reset then enable_tactile_stops s else (s, []))

/-- Source lines 76-82, `_receive_vel_cmd_cb`: same interlock wrapping,
with the mutation being the velocity setpoints. -/
def receive_vel_cmd_cb (h : Hand) (velocity : MotorId → ℚ) : Hand × List Ev :=
  let reset := h.tactile_stops_enabled
  andThen (andThen
      (if reset then disable_tactile_stops h else (h, []))
      (fun s => set_velocities s velocity))
    (fun s => if reset then enable_tactile_stops s else (s, []))

/-- Source lines 84-87, `_receive_force_cmd_cb`: unconditionally disables
the interlock, resets speeds, applies the force setpoints, and never
re-enables. -/
def receive_force_cmd_cb (h : Hand) (force : MotorId → ℚ) : Hand × List Ev :=
  andThen (andThen
      (disable_tactile_stops h)
      (fun s => reset_speeds s))
    (fun s => set_force_cmds s force)

/-- Functional update of a single motor in the dict. -/
def updateMotor (h : Hand) (id : MotorId) (f : Motor → Motor) : Hand :=
  { h with motors := fun m => if m = id then f (h.motors m) else h.motors m }

/-- Modelled from the spec: `ReflexTakktileMotor._receive_state_cb`
(missing `reflex_takktile_motor.py`) mirrors the routed sub-record into
the actuator's state. -/
def motor_receive_state (h : Hand) (id : MotorId) (rec : Nat) : Hand :=
  updateMotor h id (fun m => { m with last_state := some rec })

/-- Modelled from the spec: `Finger._receive_state_cb` (missing
`finger.py`) mirrors the routed sub-record into the finger's state. -/
def finger_receive_state (h : Hand) (id : FingerId) (rec : Nat) : Hand :=
  { h with fingers := fun f => if f = id then { last_state := some rec } else h.fingers f }

/-- The index error a short feedback batch raises: which array and which
positional index was out of range. -/
inductive FeedbackErr where
  | motorIndex (i : Nat)
  | fingerIndex (i : Nat)
  deriving DecidableEq

/-- Source lines 94-102, `_receive_hand_state_cb`: updates the watchdog
clock first, then routes `motor[0..3]` to f1, f2, f3, preshape and
`finger[0..2]` to the three fingers, in that order.  Python raises an
IndexError at the first missing index; mutations already performed stay
applied, so the result carries the state at the point of failure together
with the error. -/
def receive_hand_state_cb (h : Hand) (now : RosTime) (motor fingerData : List Nat) :
    Hand × List Ev × Option FeedbackErr :=
  let h0 := { h with latest_update := now }
  match motor[0]? with
  | none => (h0, [Ev.touch], some (.motorIndex 0))
  | some r0 =>
  let h1 := motor_receive_state h0 .f1 r0
  match motor[1]? with
  | none => (h1, [Ev.touch, .routeMotor .f1 0], some (.motorIndex 1))
  | some r1 =>
  let h2 := motor_receive_state h1 .f2 r1
  match motor[2]? with
  | none => (h2, [Ev.touch, .routeMotor .f1 0, .routeMotor .f2 1], some (.motorIndex 2))
  | some r2 =>
  let h3 := motor_receive_state h2 .f3 r2
  match motor[3]? with
  | none => (h3, [Ev.touch, .routeMotor .f1 0, .routeMotor .f2 1, .routeMotor .f3 2],
             some (.motorIndex 3))
  | some r3 =>
  let h4 := motor_receive_state h3 .preshape r3
  match fingerData[0]? with
  | none => (h4, [Ev.touch, .routeMotor .f1 0, .routeMotor .f2 1, .routeMotor .f3 2,
                  .routeMotor .preshape 3], some (.fingerIndex 0))
  | some s0 =>
  let h5 := finger_receive_state h4 .f1 s0
  match fingerData[1]? with
  | none => (h5, [Ev.touch, .routeMotor .f1 0, .routeMotor .f2 1, .routeMotor .f3 2,
                  .routeMotor .preshape 3, .routeFinger .f1 0], some (.fingerIndex 1))
  | some s1 =>
  let h6 := finger_receive_state h5 .f2 s1
  match fingerData[2]? with
  | none => (h6, [Ev.touch, .routeMotor .f1 0, .routeMotor .f2 1, .routeMotor .f3 2,
                  .routeMotor .preshape 3, .routeFinger .f1 0, .routeFinger .f2 1],
             some (.fingerIndex 2))
  | some s2 =>
  let h7 := finger_receive_state h6 .f3 s2
  (h7, [Ev.touch, .routeMotor .f1 0, .routeMotor .f2 1, .routeMotor .f3 2,
        .routeMotor .preshape 3, .routeFinger .f1 0, .routeFinger .f2 1,
        .routeFinger .f3 2], none)

/-- Whether any motor has its speed dirty flag set (source lines 129-130). -/
def anySpeedDirty (h : Hand) : Bool :=
  MotorId.all.any fun m => (h.motors m).speed_update_occurred

/-- Whether any motor has its position dirty flag set (source lines 132-133). -/
def anyPositionDirty (h : Hand) : Bool :=
  MotorId.all.any fun m => (h.motors m).position_update_occurred

/-- Whether any motor has its torque dirty flag set (source lines 135-136). -/
def anyTorqueDirty (h : Hand) : Bool :=
  MotorId.all.any fun m => (h.motors m).torque_update_occurred

/-- The batched payload of commanded speeds, in the fixed f1, f2, f3,
preshape order of `_publish_speed_commands`. -/
def commandedSpeeds (h : Hand) : List ℚ :=
  MotorId.all.map fun m => (h.motors m).commanded_speed

/-- The batched payload of commanded positions, in the fixed order of
`_publish_position_commands`. -/
def commandedPositions (h : Hand) : List ℚ :=
  MotorId.all.map fun m => (h.motors m).commanded_position

/-- The batched payload of commanded torques, in the fixed order of
`_publish_torque_commands`. -/
def commandedTorques (h : Hand) : List ℚ :=
  MotorId.all.map fun m => (h.motors m).commanded_torque

/-- Source lines 139-151, `_publish_speed_commands`: clears every motor's
speed dirty flag, then builds the `SetSpeedRequest` from the four
commanded speeds and calls the set-speed service. -/
def publish_speed_commands (h : Hand) : Hand × List Ev :=
  let h1 := { h with motors := fun m => { h.motors m with speed_update_occurred := false } }
  (h1, [Ev.emitSpeed (commandedSpeeds h1)])

/-- Source lines 153-166, `_publish_position_commands`: clears every
motor's position dirty flag, then publishes the four commanded positions
(followed by a 10 ms sleep). -/
def publish_position_commands (h : Hand) : Hand × List Ev :=
  let h1 := { h with motors := fun m => { h.motors m with position_update_occurred := false } }
  (h1, [Ev.emitPosition (commandedPositions h1)])

/-- Source lines 168-181, `_publish_torque_commands`: clears every
motor's torque dirty flag, then publishes the four commanded torques
(followed by a 10 ms sleep). -/
def publish_torque_commands (h : Hand) : Hand × List Ev :=
  let h1 := { h with motors := fun m => { h.motors m with torque_update_occurred := false } }
  (h1, [Ev.emitTorque (commandedTorques h1)])

/-- Source lines 124-137, `_publish_motor_commands`: the per-tick
arbitration, a chained conditional in fixed priority order speed >
position > torque, emitting nothing when no flag is set. -/
def publish_motor_commands (h : Hand) : Hand × List Ev :=
  if anySpeedDirty h then publish_speed_commands h
  else if anyPositionDirty h then publish_position_commands h
  else if anyTorqueDirty h then publish_torque_commands h
  else (h, [])

/-- Source line 191, the watchdog check of `main`:
`rospy.get_rostime().secs > hand.latest_update.secs + hand.comms_timeout`
compares the integer seconds fields, with the float timeout. -/
def comms_fault (h : Hand) (now : RosTime) : Bool :=
  decide ((now.secs : ℚ) > (h.latest_update.secs : ℚ) + h.comms_timeout)

/-- Source lines 37-56, the controller constructor: motors and fingers
are built by the base class and the finger module (their initial values
are external), `tactile_stops_enabled` starts false (line 52),
`comms_timeout` is 5.0 seconds (line 53) and the watchdog clock starts at
the current time (line 54). -/
def mkHand (now : RosTime) (motors0 : MotorId → Motor) (fingers0 : FingerId → Finger) : Hand :=
  { motors := motors0
    fingers := fingers0
    tactile_stops_enabled := false
    comms_timeout := 5
    latest_update := now }

/-- A concrete motor used in concrete instantiations: speed 1, position 9,
torque 20, no dirty flags. -/
def mEx : Motor :=
  { commanded_speed := 1
    commanded_position := 9
    commanded_torque := 20
    speed_update_occurred := false
    position_update_occurred := false
    torque_update_occurred := false
    tactile_stops_on := false
    last_state := none }

/-- A concrete freshly-constructed hand with no dirty flags. -/
def hEx : Hand := mkHand ⟨0, 0⟩ (fun _ => mEx) (fun _ => ⟨none⟩)

/-- The concrete hand with the interlock enabled. -/
def hEnabled : Hand := { hEx with tactile_stops_enabled := true }

/-- A concrete hand where motor f1 has both its speed and its position
dirty flags set. -/
def hSpeedDirty : Hand :=
  { hEx with motors := fun m =>
      if m = .f1 then
        { mEx with speed_update_occurred := true, position_update_occurred := true }
      else mEx }

/-- A concrete hand where motor f2 has its position and torque dirty
flags set and no speed flag is set. -/
def hPosDirty : Hand :=
  { hEx with motors := fun m =>
      if m = .f2 then
        { mEx with position_update_occurred := true, torque_update_occurred := true }
      else mEx }

/-- A concrete hand where only motor f3's torque dirty flag is set. -/
def hTorqueDirty : Hand :=
  { hEx with motors := fun m =>
      if m = .f3 then { mEx with torque_update_occurred := true } else mEx }

lemma receive_cmd_cb_flag (h : Hand) (v p : MotorId → ℚ) :
    (receive_cmd_cb h v p).1.tactile_stops_enabled = h.tactile_stops_enabled := by
  cases hb : h.tactile_stops_enabled <;>
    simp [receive_cmd_cb, andThen, disable_tactile_stops, enable_tactile_stops,
      set_speeds, set_angles, hb]

lemma receive_angle_cmd_cb_flag (h : Hand) (p : MotorId → ℚ) :
    (receive_angle_cmd_cb h p).1.tactile_stops_enabled = h.tactile_stops_enabled := by
  cases hb : h.tactile_stops_enabled <;>
    simp [receive_angle_cmd_cb, andThen, disable_tactile_stops, enable_tactile_stops,
      reset_speeds, set_angles, hb]

lemma receive_vel_cmd_cb_flag (h : Hand) (w : MotorId → ℚ) :
    (receive_vel_cmd_cb h w).1.tactile_stops_enabled = h.tactile_stops_enabled := by
  cases hb : h.tactile_stops_enabled <;>
    simp [receive_vel_cmd_cb, andThen, disable_tactile_stops, enable_tactile_stops,
      set_velocities, hb]

lemma publish_motor_commands_flag (h : Hand) :
    (publish_motor_commands h).1.tactile_stops_enabled = h.tactile_stops_enabled := by
  cases hs : anySpeedDirty h <;> cases hp : anyPositionDirty h <;> cases ht : anyTorqueDirty h <;>
    simp [publish_motor_commands, publish_speed_commands, publish_position_commands,
      publish_torque_commands, hs, hp, ht]

lemma receive_force_cmd_cb_state (h : Hand) (f : MotorId → ℚ) :
    (receive_force_cmd_cb h f).1.tactile_stops_enabled = false ∧
    (receive_force_cmd_cb h f).2 = [Ev.disable, Ev.resetSpeeds, Ev.setForceCmds] := by
  simp [receive_force_cmd_cb, andThen, disable_tactile_stops, reset_speeds, set_force_cmds]

/-- C1: if any actuator's speed dirty flag is set, the tick's arbitration
emits the speed-class command and clears every actuator's speed dirty
flag, leaving every actuator's position and torque dirty flags unchanged,
regardless of whether position or torque flags were also set. -/
theorem arbitration_speed_priority (h : Hand) (hs : anySpeedDirty h = true) :
    (publish_motor_commands h).2 = [Ev.emitSpeed (commandedSpeeds h)] ∧
    (∀ m : MotorId, ((publish_motor_commands h).1.motors m).speed_update_occurred = false) ∧
    (∀ m : MotorId, ((publish_motor_commands h).1.motors m).position_update_occurred =
      (h.motors m).position_update_occurred) ∧
    (∀ m : MotorId, ((publish_motor_commands h).1.motors m).torque_update_occurred =
      (h.motors m).torque_update_occurred) := by
  simp [publish_motor_commands, hs, publish_speed_commands, commandedSpeeds, MotorId.all]

/-- Witness for C1: on a hand whose motor f1 has both its speed and its
position flags dirty, the tick emits the speed command, clears the speed
flags, and keeps the position and torque flags. -/
theorem arbitration_speed_priority_witness :
    anySpeedDirty hSpeedDirty = true ∧
    ((publish_motor_commands hSpeedDirty).2 = [Ev.emitSpeed (commandedSpeeds hSpeedDirty)] ∧
     (∀ m : MotorId,
        ((publish_motor_commands hSpeedDirty).1.motors m).speed_update_occurred = false) ∧
     (∀ m : MotorId,
        ((publish_motor_commands hSpeedDirty).1.motors m).position_update_occurred =
          (hSpeedDirty.motors m).position_update_occurred) ∧
     (∀ m : MotorId,
        ((publish_motor_commands hSpeedDirty).1.motors m).torque_update_occurred =
          (hSpeedDirty.motors m).torque_update_occurred)) :=
  ⟨by decide, arbitration_speed_priority hSpeedDirty (by decide)⟩

/-- C2 counterexample: on a concrete hand whose motor f1 is speed dirty
with commanded position 9 and all commanded speeds 1, the serviced speed
command's payload is exactly the four commanded speeds, and f1's position
setpoint does not occur in that payload: the speed path does not re-send
position setpoints. -/
theorem speed_payload_carries_positions_cex :
    anySpeedDirty hSpeedDirty = true ∧
    (publish_motor_commands hSpeedDirty).2 = [Ev.emitSpeed (commandedSpeeds hSpeedDirty)] ∧
    commandedSpeeds hSpeedDirty = [1, 1, 1, 1] ∧
    (hSpeedDirty.motors MotorId.f1).commanded_position = 9 ∧
    (hSpeedDirty.motors MotorId.f1).commanded_position ∉ commandedSpeeds hSpeedDirty := by
  refine ⟨by decide, ?_, by decide, by decide, by decide⟩
  simp [publish_motor_commands, publish_speed_commands, commandedSpeeds, MotorId.all,
    hSpeedDirty, hEx, mkHand, anySpeedDirty, mEx]

/-- C2 amended: when the speed class is serviced, the emitted batched
command carries exactly the four commanded speeds (f1, f2, f3, preshape);
position setpoints are not part of the payload. -/
theorem speed_payload_speeds_only (h : Hand) (hs : anySpeedDirty h = true) :
    (publish_motor_commands h).2 =
      [Ev.emitSpeed [(h.motors .f1).commanded_speed, (h.motors .f2).commanded_speed,
        (h.motors .f3).commanded_speed, (h.motors .preshape).commanded_speed]] := by
  simp [publish_motor_commands, hs, publish_speed_commands, commandedSpeeds, MotorId.all]

/-- Witness for the amended C2 at the concrete speed-dirty hand. -/
theorem speed_payload_speeds_only_witness :
    anySpeedDirty hSpeedDirty = true ∧
    (publish_motor_commands hSpeedDirty).2 =
      [Ev.emitSpeed [(hSpeedDirty.motors .f1).commanded_speed,
        (hSpeedDirty.motors .f2).commanded_speed,
        (hSpeedDirty.motors .f3).commanded_speed,
        (hSpeedDirty.motors .preshape).commanded_speed]] :=
  ⟨by decide, speed_payload_speeds_only hSpeedDirty (by decide)⟩

/-- C3: every combined, angle or velocity command handled while the
interlock flag is true performs exactly disable, then its setpoint
mutations, then enable, in that order; handled while the flag is false it
performs the mutations alone, with no disable and no enable. -/
theorem interlock_wraps_inbound_commands (h : Hand) (v p w : MotorId → ℚ) :
    (receive_cmd_cb h v p).2 =
      (if h.tactile_stops_enabled then [Ev.disable, Ev.setSpeeds, Ev.setAngles, Ev.enable]
       else [Ev.setSpeeds, Ev.setAngles]) ∧
    (receive_angle_cmd_cb h p).2 =
      (if h.tactile_stops_enabled then [Ev.disable, Ev.resetSpeeds, Ev.setAngles, Ev.enable]
       else [Ev.resetSpeeds, Ev.setAngles]) ∧
    (receive_vel_cmd_cb h w).2 =
      (if h.tactile_stops_enabled then [Ev.disable, Ev.setVelocities, Ev.enable]
       else [Ev.setVelocities]) := by
  cases hb : h.tactile_stops_enabled <;>
    simp [receive_cmd_cb, receive_angle_cmd_cb, receive_vel_cmd_cb, andThen,
      disable_tactile_stops, enable_tactile_stops, set_speeds, set_angles,
      set_velocities, reset_speeds, hb]

/-- Witness for C3: the combined handler on the interlock-enabled hand
produces disable, mutations, enable; the velocity handler on the
interlock-disabled hand produces the mutation alone. -/
theorem interlock_wraps_inbound_commands_witness :
    (receive_cmd_cb hEnabled (fun _ => 2) (fun _ => 3)).2 =
      [Ev.disable, Ev.setSpeeds, Ev.setAngles, Ev.enable] ∧
    (receive_vel_cmd_cb hEx (fun _ => 2)).2 = [Ev.setVelocities] := by
  have h1 := interlock_wraps_inbound_commands hEnabled (fun _ => 2) (fun _ => 3) (fun _ => 2)
  have h2 := interlock_wraps_inbound_commands hEx (fun _ => 2) (fun _ => 3) (fun _ => 2)
  exact ⟨by simpa [hEnabled, hEx, mkHand] using h1.1, by simpa [hEx, mkHand] using h2.2.2⟩

/-- C4 counterexample: with the feedback clock at 100 s exactly and the
constructed 5 s timeout, the watchdog check at 105.00 s is no fault, and
the check at 105.01 s is ALSO no fault — the comparison is on whole
seconds, so the boundary is not strict at the threshold instant. -/
theorem watchdog_strict_boundary_cex :
    comms_fault { hEx with latest_update := ⟨100, 0⟩ } ⟨105, 0⟩ = false ∧
    comms_fault { hEx with latest_update := ⟨100, 0⟩ } ⟨105, 10000000⟩ = false := by
  constructor <;>
  · simp [comms_fault, hEx, mkHand]
    norm_num

/-- C4 amended: the watchdog compares integer seconds fields, so with
`last_feedback_time` seconds t the check yields no fault at any instant
with seconds field t + 5 (including T + 5.0 s and T + 5.01 s for T on a
whole second) and yields a fault at any instant with seconds field t + 6
(e.g. T + 6.0 s). -/
theorem watchdog_whole_second_boundary (m0 : MotorId → Motor) (f0 : FingerId → Finger)
    (t n m : Nat) :
    comms_fault (mkHand ⟨t, n⟩ m0 f0) ⟨t + 5, m⟩ = false ∧
    comms_fault (mkHand ⟨t, n⟩ m0 f0) ⟨t + 6, m⟩ = true := by
  constructor
  · simp [comms_fault, mkHand]
  · simp [comms_fault, mkHand]
    norm_num

/-- Witness for the amended C4 at concrete times. -/
theorem watchdog_whole_second_boundary_witness :
    comms_fault (mkHand ⟨100, 0⟩ (fun _ => mEx) (fun _ => ⟨none⟩)) ⟨105, 0⟩ = false ∧
    comms_fault (mkHand ⟨100, 0⟩ (fun _ => mEx) (fun _ => ⟨none⟩)) ⟨106, 0⟩ = true :=
  watchdog_whole_second_boundary (fun _ => mEx) (fun _ => ⟨none⟩) 100 0 0

/-- C5: each tick emits at most one command class; speed strictly
preempts position, position strictly preempts torque, and with no dirty
flag at all nothing is emitted. -/
theorem tick_mutual_exclusion (h : Hand) :
    (publish_motor_commands h).2.length ≤ 1 ∧
    (anySpeedDirty h = true →
      (publish_motor_commands h).2 = [Ev.emitSpeed (commandedSpeeds h)]) ∧
    (anySpeedDirty h = false → anyPositionDirty h = true →
      (publish_motor_commands h).2 = [Ev.emitPosition (commandedPositions h)]) ∧
    (anySpeedDirty h = false → anyPositionDirty h = false → anyTorqueDirty h = true →
      (publish_motor_commands h).2 = [Ev.emitTorque (commandedTorques h)]) ∧
    (anySpeedDirty h = false → anyPositionDirty h = false → anyTorqueDirty h = false →
      (publish_motor_commands h).2 = []) := by
  cases hs : anySpeedDirty h <;> cases hp : anyPositionDirty h <;> cases ht : anyTorqueDirty h <;>
    simp [publish_motor_commands, publish_speed_commands, publish_position_commands,
      publish_torque_commands, commandedSpeeds, commandedPositions, commandedTorques,
      MotorId.all, hs, hp, ht]

/-- Witness for C5: each branch of the arbitration exercised on concrete
hands — speed-dirty emits speed, position-dirty (with torque also dirty)
emits position, torque-only emits torque, and flag-free emits nothing. -/
theorem tick_mutual_exclusion_witness :
    (publish_motor_commands hSpeedDirty).2 = [Ev.emitSpeed (commandedSpeeds hSpeedDirty)] ∧
    (publish_motor_commands hPosDirty).2 = [Ev.emitPosition (commandedPositions hPosDirty)] ∧
    (publish_motor_commands hTorqueDirty).2 = [Ev.emitTorque (commandedTorques hTorqueDirty)] ∧
    (publish_motor_commands hEx).2 = [] :=
  ⟨(tick_mutual_exclusion hSpeedDirty).2.1 (by decide),
   (tick_mutual_exclusion hPosDirty).2.2.1 (by decide) (by decide),
   (tick_mutual_exclusion hTorqueDirty).2.2.2.1 (by decide) (by decide) (by decide),
   (tick_mutual_exclusion hEx).2.2.2.2 (by decide) (by decide) (by decide)⟩

/-- C6: a force command unconditionally disables the interlock, whatever
its prior value, performs no enable, and the interlock then stays false
across every other entry point (inbound handlers and the tick) until the
explicit enable call, which alone sets it true. -/
theorem force_override_disables_interlock (h : Hand) (f v p w : MotorId → ℚ) :
    (receive_force_cmd_cb h f).1.tactile_stops_enabled = false ∧
    (receive_force_cmd_cb h f).2 = [Ev.disable, Ev.resetSpeeds, Ev.setForceCmds] ∧
    Ev.enable ∉ (receive_force_cmd_cb h f).2 ∧
    (receive_cmd_cb (receive_force_cmd_cb h f).1 v p).1.tactile_stops_enabled = false ∧
    (receive_angle_cmd_cb (receive_force_cmd_cb h f).1 p).1.tactile_stops_enabled = false ∧
    (receive_vel_cmd_cb (receive_force_cmd_cb h f).1 w).1.tactile_stops_enabled = false ∧
    (publish_motor_commands (receive_force_cmd_cb h f).1).1.tactile_stops_enabled = false ∧
    (enable_tactile_stops (receive_force_cmd_cb h f).1).1.tactile_stops_enabled = true := by
  obtain ⟨hf, ht⟩ := receive_force_cmd_cb_state h f
  refine ⟨hf, ht, ?_, ?_, ?_, ?_, ?_, ?_⟩
  · simp [ht]
  · rw [receive_cmd_cb_flag]; exact hf
  · rw [receive_angle_cmd_cb_flag]; exact hf
  · rw [receive_vel_cmd_cb_flag]; exact hf
  · rw [publish_motor_commands_flag]; exact hf
  · simp [enable_tactile_stops]

/-- Witness for C6 on the interlock-enabled hand: the force handler
leaves the interlock false, performs no enable, and only the explicit
enable call re-enables it. -/
theorem force_override_disables_interlock_witness :
    (receive_force_cmd_cb hEnabled (fun _ => 5)).1.tactile_stops_enabled = false ∧
    Ev.enable ∉ (receive_force_cmd_cb hEnabled (fun _ => 5)).2 ∧
    (enable_tactile_stops
      (receive_force_cmd_cb hEnabled (fun _ => 5)).1).1.tactile_stops_enabled = true := by
  obtain ⟨h1, _, h3, _, _, _, _, h8⟩ :=
    force_override_disables_interlock hEnabled (fun _ => 5) (fun _ => 1) (fun _ => 2) (fun _ => 3)
  exact ⟨h1, h3, h8⟩

/-- C7: a well-formed feedback batch (4 motor records, 3 finger records)
is accepted; the handler touches the watchdog clock first, routes motor
records 0, 1, 2 to the three gripping actuators in id order and motor
record 3 to the preshape actuator only — no finger ever consumes a
sub-record at index 3 — and routes finger records 0, 1, 2 to the three
fingers in id order. -/
theorem feedback_fixed_routing (h : Hand) (now : RosTime) (m0 m1 m2 m3 s0 s1 s2 : Nat) :
    (receive_hand_state_cb h now [m0, m1, m2, m3] [s0, s1, s2]).2.2 = none ∧
    (receive_hand_state_cb h now [m0, m1, m2, m3] [s0, s1, s2]).2.1 =
      [Ev.touch, Ev.routeMotor .f1 0, Ev.routeMotor .f2 1, Ev.routeMotor .f3 2,
       Ev.routeMotor .preshape 3, Ev.routeFinger .f1 0, Ev.routeFinger .f2 1,
       Ev.routeFinger .f3 2] ∧
    ((receive_hand_state_cb h now [m0, m1, m2, m3] [s0, s1, s2]).2.1).head? = some Ev.touch ∧
    (receive_hand_state_cb h now [m0, m1, m2, m3] [s0, s1, s2]).1.latest_update = now ∧
    ((receive_hand_state_cb h now [m0, m1, m2, m3] [s0, s1, s2]).1.motors
      MotorId.f1).last_state = some m0 ∧
    ((receive_hand_state_cb h now [m0, m1, m2, m3] [s0, s1, s2]).1.motors
      MotorId.f2).last_state = some m1 ∧
    ((receive_hand_state_cb h now [m0, m1, m2, m3] [s0, s1, s2]).1.motors
      MotorId.f3).last_state = some m2 ∧
    ((receive_hand_state_cb h now [m0, m1, m2, m3] [s0, s1, s2]).1.motors
      MotorId.preshape).last_state = some m3 ∧
    ((receive_hand_state_cb h now [m0, m1, m2, m3] [s0, s1, s2]).1.fingers
      FingerId.f1).last_state = some s0 ∧
    ((receive_hand_state_cb h now [m0, m1, m2, m3] [s0, s1, s2]).1.fingers
      FingerId.f2).last_state = some s1 ∧
    ((receive_hand_state_cb h now [m0, m1, m2, m3] [s0, s1, s2]).1.fingers
      FingerId.f3).last_state = some s2 ∧
    (∀ fid : FingerId,
      Ev.routeFinger fid 3 ∉ (receive_hand_state_cb h now [m0, m1, m2, m3] [s0, s1, s2]).2.1) := by
  refine ⟨rfl, rfl, rfl, rfl, ?_, ?_, ?_, ?_, ?_, ?_, ?_, ?_⟩
  · simp [receive_hand_state_cb, motor_receive_state, finger_receive_state, updateMotor]
  · simp [receive_hand_state_cb, motor_receive_state, finger_receive_state, updateMotor]
  · simp [receive_hand_state_cb, motor_receive_state, finger_receive_state, updateMotor]
  · simp [receive_hand_state_cb, motor_receive_state, finger_receive_state, updateMotor]
  · simp [receive_hand_state_cb, motor_receive_state, finger_receive_state, updateMotor]
  · simp [receive_hand_state_cb, motor_receive_state, finger_receive_state, updateMotor]
  · simp [receive_hand_state_cb, motor_receive_state, finger_receive_state, updateMotor]
  · intro fid
    cases fid <;> simp [receive_hand_state_cb]

/-- Witness for C7 at a concrete batch. -/
theorem feedback_fixed_routing_witness :
    (receive_hand_state_cb hEx ⟨50, 0⟩ [1, 2, 3, 4] [5, 6, 7]).2.2 = none ∧
    ((receive_hand_state_cb hEx ⟨50, 0⟩ [1, 2, 3, 4] [5, 6, 7]).1.motors
      MotorId.preshape).last_state = some 4 ∧
    Ev.routeFinger FingerId.f1 3 ∉
      (receive_hand_state_cb hEx ⟨50, 0⟩ [1, 2, 3, 4] [5, 6, 7]).2.1 := by
  obtain ⟨h1, _, _, _, _, _, _, h8, _, _, _, h12⟩ :=
    feedback_fixed_routing hEx ⟨50, 0⟩ 1 2 3 4 5 6 7
  exact ⟨h1, h8, h12 FingerId.f1⟩

/-- C8 counterexample: the short batch of 4 motor records and 1 finger
record is rejected with an index error, but the controller state is NOT
left unchanged: the watchdog clock has moved from 0 s to 50 s and finger
f1's mirror is already populated when the error is raised. -/
theorem short_feedback_cex :
    (receive_hand_state_cb hEx ⟨50, 0⟩ [1, 2, 3, 4] [7]).2.2 =
      some (FeedbackErr.fingerIndex 1) ∧
    (receive_hand_state_cb hEx ⟨50, 0⟩ [1, 2, 3, 4] [7]).1.latest_update = ⟨50, 0⟩ ∧
    hEx.latest_update = ⟨0, 0⟩ ∧
    (receive_hand_state_cb hEx ⟨50, 0⟩ [1, 2, 3, 4] [7]).1.latest_update ≠ hEx.latest_update ∧
    ((receive_hand_state_cb hEx ⟨50, 0⟩ [1, 2, 3, 4] [7]).1.fingers FingerId.f1).last_state =
      some 7 ∧
    (hEx.fingers FingerId.f1).last_state = none := by
  refine ⟨rfl, rfl, rfl, ?_, ?_, rfl⟩
  · intro hcontra
    simp [receive_hand_state_cb, finger_receive_state, motor_receive_state, updateMotor,
      hEx, mkHand] at hcontra
  · simp [receive_hand_state_cb, finger_receive_state, motor_receive_state, updateMotor]

/-- C8 amended: a feedback batch violating the fixed 4-motor/3-finger
shape makes the handler stop at the first missing index with an index
error rather than silently truncating, but the watchdog clock is always
updated first (and sub-records before the failing index stay applied), so
the state is not left unchanged. -/
theorem short_feedback_touches_then_errors (h : Hand) (now : RosTime)
    (motor fingerData : List Nat) :
    (receive_hand_state_cb h now motor fingerData).1.latest_update = now ∧
    ((receive_hand_state_cb h now motor fingerData).2.2 = none ↔
      4 ≤ motor.length ∧ 3 ≤ fingerData.length) := by
  rcases motor with _ | ⟨a, _ | ⟨b, _ | ⟨c, _ | ⟨d, mr⟩⟩⟩⟩ <;>
    rcases fingerData with _ | ⟨e, _ | ⟨f, _ | ⟨g, sr⟩⟩⟩ <;>
      simp [receive_hand_state_cb, motor_receive_state, finger_receive_state, updateMotor]

/-- Witness for the amended C8: a two-motor batch errors while the
watchdog clock is already advanced. -/
theorem short_feedback_touches_then_errors_witness :
    (receive_hand_state_cb hEx ⟨50, 0⟩ [1, 2] [7, 8, 9]).1.latest_update = ⟨50, 0⟩ ∧
    ¬(receive_hand_state_cb hEx ⟨50, 0⟩ [1, 2] [7, 8, 9]).2.2 = none := by
  obtain ⟨h1, h2⟩ := short_feedback_touches_then_errors hEx ⟨50, 0⟩ [1, 2] [7, 8, 9]
  refine ⟨h1, fun hnone => ?_⟩
  have h3 := h2.mp hnone
  simp at h3

/-- C9: immediately after construction the interlock flag is false, so an
inbound command arriving before any explicit enable call is applied
without the disable/enable wrapping. -/
theorem init_interlock_disabled (now : RosTime) (m0 : MotorId → Motor) (f0 : FingerId → Finger)
    (v p w : MotorId → ℚ) :
    (mkHand now m0 f0).tactile_stops_enabled = false ∧
    (receive_cmd_cb (mkHand now m0 f0) v p).2 = [Ev.setSpeeds, Ev.setAngles] ∧
    (receive_angle_cmd_cb (mkHand now m0 f0) p).2 = [Ev.resetSpeeds, Ev.setAngles] ∧
    (receive_vel_cmd_cb (mkHand now m0 f0) w).2 = [Ev.setVelocities] := by
  refine ⟨rfl, ?_, ?_, ?_⟩ <;>
    simp [receive_cmd_cb, receive_angle_cmd_cb, receive_vel_cmd_cb, andThen, mkHand,
      set_speeds, set_angles, set_velocities, reset_speeds]

/-- Witness for C9 at a concrete construction. -/
theorem init_interlock_disabled_witness :
    (mkHand ⟨0, 0⟩ (fun _ => mEx) (fun _ => ⟨none⟩)).tactile_stops_enabled = false ∧
    (receive_vel_cmd_cb (mkHand ⟨0, 0⟩ (fun _ => mEx) (fun _ => ⟨none⟩)) (fun _ => 2)).2 =
      [Ev.setVelocities] := by
  obtain ⟨h1, _, _, h4⟩ :=
    init_interlock_disabled ⟨0, 0⟩ (fun _ => mEx) (fun _ => ⟨none⟩)
      (fun _ => 2) (fun _ => 3) (fun _ => 2)
  exact ⟨h1, h4⟩

/-- C10: the angle and the force handlers reset every actuator's
commanded speed (the reset strictly precedes the new position or force
setpoints in the trace, and the final commanded speeds are the default),
while the combined handler performs no reset and sets the commanded
speeds from the command itself. -/
theorem reset_speeds_before_setpoints (h : Hand) (p f v : MotorId → ℚ) :
    (receive_angle_cmd_cb h p).2 =
      (if h.tactile_stops_enabled then [Ev.disable, Ev.resetSpeeds, Ev.setAngles, Ev.enable]
       else [Ev.resetSpeeds, Ev.setAngles]) ∧
    (receive_force_cmd_cb h f).2 = [Ev.disable, Ev.resetSpeeds, Ev.setForceCmds] ∧
    (∀ m : MotorId, ((receive_angle_cmd_cb h p).1.motors m).commanded_speed = defaultSpeed) ∧
    (∀ m : MotorId, ((receive_force_cmd_cb h f).1.motors m).commanded_speed = defaultSpeed) ∧
    (receive_cmd_cb h v p).2 =
      (if h.tactile_stops_enabled then [Ev.disable, Ev.setSpeeds, Ev.setAngles, Ev.enable]
       else [Ev.setSpeeds, Ev.setAngles]) ∧
    (∀ m : MotorId, ((receive_cmd_cb h v p).1.motors m).commanded_speed = v m) ∧
    Ev.resetSpeeds ∉ (receive_cmd_cb h v p).2 := by
  cases hb : h.tactile_stops_enabled <;>
    simp [receive_angle_cmd_cb, receive_force_cmd_cb, receive_cmd_cb, andThen,
      disable_tactile_stops, enable_tactile_stops, set_speeds, set_angles,
      reset_speeds, set_force_cmds, hb]

/-- Witness for C10 on the interlock-enabled hand. -/
theorem reset_speeds_before_setpoints_witness :
    (receive_angle_cmd_cb hEnabled (fun _ => 3)).2 =
      [Ev.disable, Ev.resetSpeeds, Ev.setAngles, Ev.enable] ∧
    ((receive_force_cmd_cb hEnabled (fun _ => 5)).1.motors MotorId.f1).commanded_speed =
      defaultSpeed := by
  obtain ⟨h1, _, _, h4, _, _, _⟩ :=
    reset_speeds_before_setpoints hEnabled (fun _ => 3) (fun _ => 5) (fun _ => 2)
  exact ⟨by simpa [hEnabled, hEx, mkHand] using h1, h4 MotorId.f1⟩
